import Mathlib

/-!
Shallow embedding of the route handlers of the backstage-software-template
repository: three project-scaffolding templates (a FastAPI service, a Flask
service and a Django project), each a small route table of handlers that
return fixed or near-fixed payloads.

JSON response bodies are modelled as association lists from string keys to
string values, in the exact order the source writes the fields.  Templated
scaffolding placeholders such as the application-name value are kept
verbatim, as the literal strings that appear in the source files.  The only
handler that reads ambient state is the Flask info handler, which reads the
formatted wall-clock time and the machine hostname; it is embedded as a
function of those two strings.  Handlers that set no explicit HTTP status
code get the frameworks' shared default of 200, modelled explicitly.
-/

/-- The literal application-name placeholder as written in the FastAPI
template sources (with the inner spaces): the text dollar-brace-brace
values.app_name brace-brace. -/
def appNamePlaceholderSpaced : String := "$\x7b\x7b values.app_name \x7d\x7d"

/-- The literal application-name placeholder as written in the Flask
template source (no inner spaces). -/
def appNamePlaceholder : String := "$\x7b\x7bvalues.app_name\x7d\x7d"

/-- The literal environment placeholder as written in the Flask template
source. -/
def appEnvPlaceholder : String := "$\x7b\x7bvalues.app_env\x7d\x7d"

/-- Ambient state a handler could observe at invocation time: the current
wall-clock time (already formatted to a string) and the machine hostname. -/
structure Env where
  now : String
  hostname : String

/-- The HTTP status code the frameworks (FastAPI, Flask, Django) attach to
a successfully returned handler response when the handler sets no explicit
code. -/
def frameworkDefaultStatusCode : Nat := 200

/-- The status code of a response: the explicit code when the handler gives
one, the framework default otherwise. -/
def effectiveStatusCode : Option Nat → Nat
  | some c => c
  | none => frameworkDefaultStatusCode

namespace MainPy

/-- Handler bound to GET /health in src/main.py of the FastAPI template. -/
def health : List (String × String) :=
  [("status", "healthy"), ("app", appNamePlaceholderSpaced)]

/-- Handler bound to GET /ready in src/main.py of the FastAPI template. -/
def readiness : List (String × String) :=
  [("status", "ready"), ("app", appNamePlaceholderSpaced)]

/-- Handler bound to GET /api/v1/status in src/main.py of the FastAPI
template. -/
def status : List (String × String) :=
  [("status", "running"), ("app", appNamePlaceholderSpaced), ("version", "1.0.0")]

/-- Handler bound to GET / in src/main.py of the FastAPI template. -/
def root : List (String × String) :=
  [("message", "Welcome to $\x7b\x7b values.app_name \x7d\x7d"),
   ("docs", "/docs"),
   ("health", "/health")]

/-- Route table of src/main.py: each path together with the explicit HTTP
status code the handler sets (none of them sets one). -/
def routes : List (String × Option Nat) :=
  [("/health", none), ("/ready", none), ("/api/v1/status", none), ("/", none)]

/-- Dispatch of the src/main.py application: the body produced for a GET
request to the given path, none when no route matches. -/
def dispatch : String → Option (List (String × String))
  | "/health" => some health
  | "/ready" => some readiness
  | "/api/v1/status" => some status
  | "/" => some root
  | _ => none

end MainPy

namespace HealthRouter

/-- Handler bound to GET /health in src/app/routers/health.py of the
FastAPI template. -/
def health : List (String × String) :=
  [("status", "healthy"), ("app", appNamePlaceholderSpaced)]

/-- Handler bound to GET /ready in src/app/routers/health.py of the
FastAPI template. -/
def readiness : List (String × String) :=
  [("status", "ready"), ("app", appNamePlaceholderSpaced)]

end HealthRouter

namespace StatusRouter

/-- Handler bound to GET /api/v1/status in app/routers/status.py of the
FastAPI template. -/
def status : List (String × String) :=
  [("status", "running"), ("app", appNamePlaceholderSpaced), ("version", "1.0.0")]

end StatusRouter

namespace FlaskApp

/-- Handler bound to GET /api/v1/info in src/app.py of the Flask template.
The source reads the formatted current time and the machine hostname; they
enter here as the two parameters. -/
def info (now hostname : String) : List (String × String) :=
  [("time", now),
   ("hostname", hostname),
   ("message", "You are doing great, human!!! XOX111O"),
   ("deployed_on", "kubernetes"),
   ("env", appNamePlaceholder),
   ("app_name", appEnvPlaceholder)]

/-- Handler bound to GET /api/v1/healthz in src/app.py of the Flask
template; the source spells the key of its one field as it is spelt here. -/
def health : List (String × String) :=
  [("staus", "up")]

/-- Route table of src/app.py: each path with the explicit status code the
handler sets (the healthz handler returns an explicit 200, the info handler
sets none). -/
def routes : List (String × Option Nat) :=
  [("/api/v1/info", none), ("/api/v1/healthz", some 200)]

end FlaskApp

namespace DjangoUrls

/-- Handler bound to the path health/ in project/urls.py of the Django
template. -/
def health_check : String := "ok"

/-- Handler bound to the empty path in project/urls.py of the Django
template. -/
def home : String := "Hello World from Django"

/-- Route table of project/urls.py restricted to the handlers defined in
the repository (the admin/ path delegates wholly to the framework's admin
site, which is not part of this repository's code); neither handler sets an
explicit status code. -/
def routes : List (String × Option Nat) :=
  [("health/", none), ("", none)]

end DjangoUrls

/-- Every route of every template that is bound to a handler defined in the
repository, with the explicit status code the handler sets, when any. -/
def allDefinedRoutes : List (String × Option Nat) :=
  MainPy.routes ++ FlaskApp.routes ++ DjangoUrls.routes

/-- One test of the repository's test file
(src/tests/test_api.py of the FastAPI template): the path it issues a GET
request to, the status code it asserts, and the body field it asserts. -/
structure ApiTest where
  route : String
  expectedCode : Nat
  expectedKey : String
  expectedVal : String
deriving DecidableEq

/-- First test of src/tests/test_api.py: GET /health, assert 200 and
status == healthy. -/
def test_health_endpoint : ApiTest :=
  ⟨"/health", 200, "status", "healthy"⟩

/-- Second test of src/tests/test_api.py: GET /api/v1/status, assert 200
and status == running. -/
def test_status_endpoint : ApiTest :=
  ⟨"/api/v1/status", 200, "status", "running"⟩

/-- The repository's test file, src/tests/test_api.py of the FastAPI
template: the full list of its tests. -/
def testFile : List ApiTest :=
  [test_health_endpoint, test_status_endpoint]

/-- Whether a test of the test file passes against the embedded src/main.py
application: the route dispatches, the response carries the framework
default code (no src/main.py handler sets one), and the asserted field is
in the body. -/
def testPasses (t : ApiTest) : Bool :=
  match MainPy.dispatch t.route with
  | some body =>
      (effectiveStatusCode none == t.expectedCode)
        && body.contains (t.expectedKey, t.expectedVal)
  | none => false

/-- Every handler of the repository other than the Flask info handler, as a
function of the ambient state — each ignores it, as its source reads
neither the clock nor the hostname: first the JSON-returning handlers. -/
def constantJsonHandlers : List (Env → List (String × String)) :=
  [fun _ => MainPy.health, fun _ => MainPy.readiness, fun _ => MainPy.status,
   fun _ => MainPy.root, fun _ => HealthRouter.health,
   fun _ => HealthRouter.readiness, fun _ => StatusRouter.status,
   fun _ => FlaskApp.health]

/-- The plain-text handlers of the Django template, as functions of the
ambient state (both ignore it). -/
def constantTextHandlers : List (Env → String) :=
  [fun _ => DjangoUrls.health_check, fun _ => DjangoUrls.home]

/-- C1: claimed, every health-type handler returns a body with a key named
status valued in the set of healthy, up, ready; the FastAPI handlers do,
but the Flask healthz handler does not: evaluating it shows its only key is
the misspelt staus (valued up), and no status key is present. -/
theorem flask_healthz_key_is_staus :
    FlaskApp.health.map Prod.fst = ["staus"]
      ∧ "status" ∉ FlaskApp.health.map Prod.fst
      ∧ FlaskApp.health.lookup "staus" = some "up"
      ∧ MainPy.health.lookup "status" = some "healthy" := by
  decide

/-- C2 counterexample: the Flask info handler is not a fixed function of
the request: two invocations of it on the same request, one second apart on
the same host, yield different response bodies. -/
theorem flask_info_not_fixed :
    FlaskApp.info "10:00:00AM on October 12, 2025" "pod-a"
      ≠ FlaskApp.info "10:00:01AM on October 12, 2025" "pod-a" := by
  decide

/-- C2 amended: every handler except the Flask info handler returns a body
independent of the ambient state, and the Flask info handler is a
deterministic function of exactly the formatted current time and the
hostname: its bodies at two invocations agree precisely when those two
readings agree. -/
theorem handlers_deterministic :
    (∀ e e' : Env,
        constantJsonHandlers.map (fun f => f e)
            = constantJsonHandlers.map (fun f => f e')
          ∧ constantTextHandlers.map (fun f => f e)
            = constantTextHandlers.map (fun f => f e'))
      ∧ ∀ t t' h h' : String,
          (FlaskApp.info t h = FlaskApp.info t' h' ↔ t = t' ∧ h = h') := by
  constructor
  · intro e e'
    exact ⟨rfl, rfl⟩
  · intro t t' h h'
    simp [FlaskApp.info]

/-- C3 counterexample: the repository's test file contains no test that
issues a GET request to the ready path. -/
theorem no_ready_test :
    ¬ ∃ t ∈ testFile, t.route = "/ready" := by
  decide

/-- C3 amended: the repository's test file exercises exactly two
properties, the health test and the status test, both of which pass against
the embedded application; it contains no test for the ready path. -/
theorem testfile_exercises_two_properties :
    testFile = [test_health_endpoint, test_status_endpoint]
      ∧ testFile.all testPasses = true
      ∧ testFile.all (fun t => t.route != "/ready") = true := by
  decide

/-- C4: a GET request to the health path of the FastAPI template yields the
framework-default status code 200 (the route sets no explicit code) and a
body whose status field equals healthy, both for the inline src/main.py
handler and for the standalone router handler. -/
theorem health_returns_200_healthy :
    MainPy.routes.lookup "/health" = some none
      ∧ effectiveStatusCode none = 200
      ∧ MainPy.dispatch "/health" = some MainPy.health
      ∧ MainPy.health.lookup "status" = some "healthy"
      ∧ HealthRouter.health.lookup "status" = some "healthy" := by
  decide

/-- C5: a GET request to the api/v1/status path of the FastAPI template
yields the framework-default status code 200 and a body of exactly the
StatusInfo shape — keys status, app, version in order — with status equal
to running and version equal to 1.0.0, both for the inline src/main.py
handler and for the standalone router handler. -/
theorem status_returns_200_running :
    MainPy.routes.lookup "/api/v1/status" = some none
      ∧ effectiveStatusCode none = 200
      ∧ MainPy.dispatch "/api/v1/status" = some MainPy.status
      ∧ MainPy.status.map Prod.fst = ["status", "app", "version"]
      ∧ MainPy.status.lookup "status" = some "running"
      ∧ MainPy.status.lookup "version" = some "1.0.0"
      ∧ StatusRouter.status.map Prod.fst = ["status", "app", "version"]
      ∧ StatusRouter.status.lookup "status" = some "running"
      ∧ StatusRouter.status.lookup "version" = some "1.0.0" := by
  decide

/-- C6: a GET request to the ready path of the FastAPI template yields the
framework-default status code 200 and a body whose status field equals
ready, both for the inline src/main.py handler and for the standalone
router handler. -/
theorem ready_returns_200_ready :
    MainPy.routes.lookup "/ready" = some none
      ∧ effectiveStatusCode none = 200
      ∧ MainPy.dispatch "/ready" = some MainPy.readiness
      ∧ MainPy.readiness.lookup "status" = some "ready"
      ∧ HealthRouter.readiness.lookup "status" = some "ready" := by
  decide

/-- C7: every route of every template that is bound to a repository-defined
handler resolves to status code 200: the explicit code where one is set
(the Flask healthz handler) and the framework default 200 everywhere
else. -/
theorem all_defined_routes_return_200 :
    ∀ r ∈ allDefinedRoutes, effectiveStatusCode r.2 = 200 := by
  decide

/-- Witness for C7, at the one route that sets an explicit code. -/
theorem all_defined_routes_return_200_witness :
    effectiveStatusCode (some 200) = 200 :=
  all_defined_routes_return_200 ("/api/v1/healthz", some 200) (by decide)

/-- C8: every invocation of the Flask info handler, whatever the time and
hostname read, returns a body whose key list is exactly the six fields of
InfoPayload: time, hostname, message, deployed_on, env, app_name. -/
theorem info_payload_keys :
    ∀ now hostname : String,
      (FlaskApp.info now hostname).map Prod.fst
        = ["time", "hostname", "message", "deployed_on", "env", "app_name"] := by
  intro now hostname
  rfl

/-- Witness for C8 at a concrete time and hostname. -/
theorem info_payload_keys_witness :
    (FlaskApp.info "10:00:00AM on October 12, 2025" "pod-a").map Prod.fst
      = ["time", "hostname", "message", "deployed_on", "env", "app_name"] :=
  info_payload_keys "10:00:00AM on October 12, 2025" "pod-a"

/-- C9: in every invocation of the Flask info handler the two scaffolding
placeholders are swapped relative to their field names: the env field
carries the application-name placeholder and the app_name field carries the
environment placeholder. -/
theorem info_env_app_name_swapped :
    ∀ now hostname : String,
      (FlaskApp.info now hostname).lookup "env" = some appNamePlaceholder
        ∧ (FlaskApp.info now hostname).lookup "app_name" = some appEnvPlaceholder := by
  intro now hostname
  exact ⟨rfl, rfl⟩

/-- Witness for C9 at a concrete time and hostname. -/
theorem info_env_app_name_swapped_witness :
    (FlaskApp.info "10:00:00AM on October 12, 2025" "pod-a").lookup "env"
        = some appNamePlaceholder
      ∧ (FlaskApp.info "10:00:00AM on October 12, 2025" "pod-a").lookup "app_name"
        = some appEnvPlaceholder :=
  info_env_app_name_swapped "10:00:00AM on October 12, 2025" "pod-a"

/-- C10: the standalone router handlers of the FastAPI template return
bodies identical, field for field, to the corresponding handlers defined
inline in src/main.py. -/
theorem routers_agree_with_main :
    HealthRouter.health = MainPy.health
      ∧ HealthRouter.readiness = MainPy.readiness
      ∧ StatusRouter.status = MainPy.status := by
  exact ⟨rfl, rfl, rfl⟩
